import Mathlib

/-!
Shallow embedding of the research-orchestration core of the
mcp-research-router repository, together with theorems settling the
frozen claims about it.

Source files embedded:
* src/.history/src/tools/researchRun_20251026170827.ts  (researchRun,
  executeProviderQuery, updateSystemStatus, createProviderStatus)
* src/unnamed/part_006  (synthesize, aggregateWithoutSynthesis,
  buildSynthesisPrompt, calculateMetrics)
* src/src/utils/http.ts  (fetchWithRetry, calculateBackoff, enrichError)
* src/.history/src/utils/rateLimit_20251026124359.ts  (provider limiters,
  handleRateLimitError, updateProviderRateLimit, resetProviderRateLimit)
* src/src/adapters/openai.ts, gemini.ts, perplexity.ts and
  src/.history/src/adapters/deepseek_20251026131518.ts  (adapter shape)
* src/unnamed/part_005  (the shared type declarations)

Conventions of the embedding: wall-clock readings are supplied by the
environment records; network interactions are supplied as outcome
functions in the environment; JavaScript numbers used for money and
averages are modelled as rationals; JavaScript truthiness tests on the
optional error string are modelled by the dedicated predicate
errTruthy (undefined and the empty string are both falsy).
-/

namespace ResearchRouter

/-! ## Data model (src/unnamed/part_005, the types module) -/

/-- The closed enumeration of provider identifiers. -/
inductive Provider
  | openai
  | gemini
  | perplexity
  | deepseek
deriving DecidableEq, Repr

/-- String name of a provider, as produced by template interpolation of
the enum value in the TypeScript source. -/
def providerName : Provider → String
  | .openai => "openai"
  | .gemini => "gemini"
  | .perplexity => "perplexity"
  | .deepseek => "deepseek"

/-- Citation information from provider responses. -/
structure Citation where
  title : String
  url : Option String := none
  index : Option Nat := none
deriving DecidableEq, Repr

/-- Token usage information. -/
structure TokenUsage where
  promptTokens : Nat
  completionTokens : Nat
  totalTokens : Nat
deriving DecidableEq, Repr

/-- One research question, caller supplied (ResearchQuery in the source). -/
structure ResearchQuery where
  id : String
  text : String
deriving DecidableEq, Repr

/-- Result from a single provider query (ProviderResult in types). -/
structure ProviderResult where
  provider : Provider
  model : String
  questionId : String
  content : String
  citations : Option (List Citation) := none
  usage : Option TokenUsage := none
  latencyMs : Nat
  timestamp : String
  error : Option String := none
deriving DecidableEq, Repr

/-- JavaScript truthiness of the optional error field: the tests
`if (r.error)` and `!r.error` in the source treat both an absent error
and an empty error string as falsy. -/
def errTruthy (r : ProviderResult) : Bool :=
  match r.error with
  | some s => s ≠ ""
  | none => false

/-- Metrics summary attached to a synthesis result. -/
structure MetricsSummary where
  totalQueries : Nat
  successfulQueries : Nat
  failedQueries : Nat
  totalLatencyMs : Nat
  avgLatencyMs : ℚ
  costEstimates : Provider → ℚ
  totalCostUSD : ℚ

/-- Result of the synthesis stage (SynthesisResult in types). -/
structure SynthesisResult where
  synthesized : String
  sources : List ProviderResult
  metrics : MetricsSummary
  timestamp : String
  synthModel : String

/-- Per-provider status line of the run snapshot. -/
structure ProviderStatus where
  provider : Provider
  totalQueries : Nat
  successfulQueries : Nat
  failedQueries : Nat
  successRate : ℚ
  avgLatencyMs : ℚ
  totalCostUSD : ℚ

/-- Whole-run status snapshot (SystemStatus in types). -/
structure SystemStatus where
  providers : List ProviderStatus
  lastRunTimestamp : String
  totalQueries : Nat
  totalCostUSD : ℚ

/-! ## Provider adapters

All four adapters (openai.ts, gemini.ts, perplexity.ts, deepseek.ts)
share one shape: `query` either resolves with a result carrying the
adapter provider tag, the selected model and the passed questionId and
no error field set (the success return site, whose content may be the
empty string when the response carried none), or resolves with the same
tags, empty content and the caught error message (the catch return
site), or rejects (for example the initial not-configured throw or a
rejection of the rate limiter). The environment below chooses among
these outcomes per call. -/

/-- Outcome of one adapter query as the adapter code can produce it:
exactly the two return sites of every adapter query method. -/
inductive AdapterReply
  | answered (content : String) (citations : Option (List Citation))
      (usage : Option TokenUsage) (latencyMs : Nat) (timestamp : String)
  | failed (message : String) (latencyMs : Nat) (timestamp : String)
deriving DecidableEq, Repr

/-- Build the ProviderResult an adapter returns from one of its two
return sites (provider tag, model and questionId are always the ones of
the call). -/
def mkAdapterResult (p : Provider) (model questionId : String) :
    AdapterReply → ProviderResult
  | .answered content citations usage latencyMs timestamp =>
      { provider := p, model := model, questionId := questionId
        content := content, citations := citations, usage := usage
        latencyMs := latencyMs, timestamp := timestamp, error := none }
  | .failed message latencyMs timestamp =>
      { provider := p, model := model, questionId := questionId
        content := "", latencyMs := latencyMs, timestamp := timestamp
        error := some message }

/-- Environment of one orchestrated run: configuration state of each
adapter, its default model, the outcome of each rate-limited adapter
call (argument order: provider, question text, model, question id;
an `Except.error` models a rejected promise caught by
executeProviderQuery), and the wall clock reading used for the
timestamps the orchestrator itself fabricates. -/
structure AdapterEnv where
  validateConfig : Provider → Bool
  getDefaultModel : Provider → String
  query : Provider → String → String → String → Except String AdapterReply
  now : String

/-! ## executeProviderQuery
(src/.history/src/tools/researchRun_20251026170827.ts lines 55 to 109).
The Bool of the returned pair records whether the rate-limited call was
issued, that is whether withRateLimit and so the concurrency governor
and the executor were invoked at all. -/

/-- Execute a single provider query with rate limiting; faithful to
executeProviderQuery in the researchRun tool. -/
def executeProviderQuery (env : AdapterEnv) (provider : Provider)
    (question : ResearchQuery) (model : Option String) :
    ProviderResult × Bool :=
  if ¬ env.validateConfig provider then
    ({ provider := provider
       model := model.getD (env.getDefaultModel provider)
       questionId := question.id
       content := ""
       latencyMs := 0
       timestamp := env.now
       error := some (providerName provider ++ " API key not configured") },
     false)
  else
    let selectedModel := model.getD (env.getDefaultModel provider)
    match env.query provider question.text selectedModel question.id with
    | .ok reply => (mkAdapterResult provider selectedModel question.id reply, true)
    | .error errorMsg =>
        ({ provider := provider
           model := selectedModel
           questionId := question.id
           content := ""
           latencyMs := 0
           timestamp := env.now
           error := some errorMsg },
         true)

/-! ## Task matrix (researchRun lines 140 to 146) -/

/-- The task matrix: outer loop over providers, inner loop over
questions. -/
def buildTasks (providers : List Provider) (questions : List ResearchQuery) :
    List (Provider × ResearchQuery) :=
  providers.flatMap fun provider => questions.map fun question => (provider, question)

/-- The list of provider results of one run, in task order: researchRun
maps executeProviderQuery over the task matrix (no model override is
passed) and Promise.allSettled keeps every fulfilled value; since
executeProviderQuery never rejects, every slot is kept. -/
def runResults (env : AdapterEnv) (providers : List Provider)
    (questions : List ResearchQuery) : List ProviderResult :=
  (buildTasks providers questions).map fun t =>
    (executeProviderQuery env t.1 t.2 none).1

/-- The per-task record of whether the governor and executor were
invoked, in task order. -/
def runNetworkFlags (env : AdapterEnv) (providers : List Provider)
    (questions : List ResearchQuery) : List Bool :=
  (buildTasks providers questions).map fun t =>
    (executeProviderQuery env t.1 t.2 none).2

/-! ## Cost estimates

The cost module src/utils/cost.ts is absent from the source tree (only
its callers are present), so the static estimate table is abstracted as
a parameter and the two aggregate functions are modelled from the spec. -/

/-- Modelled from the spec: src/utils/cost.ts (calculateTotalCost) is
missing from the source tree. Spec section 4.6 — cost is the sum of the
static per-provider/per-model cost-table lookups for successful
results; the static table is the parameter cost. -/
def calculateTotalCost (cost : Provider → String → ℚ)
    (results : List ProviderResult) : ℚ :=
  ((results.filter fun r => !(errTruthy r)).map fun r => cost r.provider r.model).sum

/-- Modelled from the spec: src/utils/cost.ts (calculateCostBreakdown)
is missing from the source tree. Spec sections 4.6 and 4.7 — the same
static estimates broken down per provider, over successful results
only. -/
def calculateCostBreakdown (cost : Provider → String → ℚ)
    (results : List ProviderResult) : Provider → ℚ :=
  fun p =>
    ((results.filter fun r => !(errTruthy r) && decide (r.provider = p)).map
      fun r => cost r.provider r.model).sum

/-! ## Synthesis module (src/unnamed/part_006) -/

/-- Metrics summary of one run, from calculateMetrics in the synthesis
module. -/
def calculateMetrics (cost : Provider → String → ℚ)
    (results : List ProviderResult) (synthesisLatencyMs : Nat) :
    MetricsSummary :=
  let successful := results.filter fun r => !(errTruthy r)
  let failed := results.filter errTruthy
  let totalLatencyMs := (results.map (·.latencyMs)).sum + synthesisLatencyMs
  { totalQueries := results.length
    successfulQueries := successful.length
    failedQueries := failed.length
    totalLatencyMs := totalLatencyMs
    avgLatencyMs :=
      if results.length > 0 then (totalLatencyMs : ℚ) / results.length else 0
    costEstimates := calculateCostBreakdown cost results
    totalCostUSD := calculateTotalCost cost results }

/-- Keys of a JavaScript Map built by repeated insertion, in insertion
order: each key is appended the first time it is seen. -/
def firstKeys (l : List String) : List String :=
  l.foldl (fun acc k => if k ∈ acc then acc else acc ++ [k]) []

/-- The byQuestion grouping Map of the synthesis module: question ids in
insertion order, each paired with the results carrying it, in encounter
order. -/
def mapGroups (results : List ProviderResult) :
    List (String × List ProviderResult) :=
  (firstKeys (results.map (·.questionId))).map fun qid =>
    (qid, results.filter fun r => r.questionId == qid)

/-- Citation block pushed for one result when it has a non-empty
citation list: header, one line per citation, then a blank line. -/
def citationLines (cits : List Citation) : List String :=
  "**Citations:**" ::
    (cits.map fun c =>
      match c.url with
      | some u => "- [" ++ c.title ++ "](" ++ u ++ ")"
      | none => "- " ++ c.title)
  ++ [""]

/-- Citation block of one result, empty unless the citations field is
present and non-empty. -/
def resultCitationBlock (r : ProviderResult) : List String :=
  match r.citations with
  | some cits => if cits.length > 0 then citationLines cits else []
  | none => []

/-- Fixed header of the synthesis prompt. -/
def promptHeader : List String :=
  [ "# Research Synthesis Task"
  , ""
  , "You are a research synthesizer. Analyze the following results from multiple AI providers and create a concise, unified summary."
  , ""
  , "## Your Tasks:"
  , "1. **Combine key findings** - Merge information into a coherent narrative"
  , "2. **Remove duplicates** - Eliminate redundant information"
  , "3. **Highlight contradictions** - Note any conflicting information if critical"
  , "4. **Be concise** - Focus on essential information only"
  , "5. **Maintain factual accuracy** - Do not add information not present in the sources"
  , ""
  , "## Format Requirements:"
  , "- Keep the output concise and focused"
  , "- Organize content by topic/theme, not by provider"
  , "- Use markdown formatting for readability"
  , "- Avoid excessive citations and URLs in the main text"
  , "- If contradictions exist, briefly note them"
  , ""
  , "---"
  , "" ]

/-- The heading line both grouping loops push for the question group
numbered n (numbering starts at one) with the given question id. -/
def questionHeading (n : Nat) (qid : String) : String :=
  "## Question " ++ toString n ++ " (ID: " ++ qid ++ ")"

/-- Lines pushed for one result inside the synthesis prompt. -/
def promptResultSection (r : ProviderResult) : List String :=
  ["### Response from " ++ providerName r.provider ++ " (" ++ r.model ++ ")"
  , "", r.content, ""] ++ resultCitationBlock r

/-- Lines pushed for one question group inside the synthesis prompt. -/
def promptQuestionSection (n : Nat) (qid : String)
    (group : List ProviderResult) : List String :=
  questionHeading n qid :: "" :: group.flatMap promptResultSection

/-- Join a list of lines with newline separators, as the Array join of
the source. -/
def joinLines : List String → String
  | [] => ""
  | [s] => s
  | s :: rest => s ++ "\n" ++ joinLines rest

/-- The consolidated synthesis prompt built from provider results
(buildSynthesisPrompt in the synthesis module; the loop itself skips
results whose error is truthy). -/
def buildSynthesisPrompt (results : List ProviderResult) : String :=
  let byQuestion := mapGroups (results.filter fun r => !(errTruthy r))
  joinLines
    (promptHeader
      ++ (byQuestion.enum.flatMap fun p =>
            promptQuestionSection (p.1 + 1) p.2.1 p.2.2)
      ++ [ "---"
         , ""
         , "**Now, synthesize the above into a unified, comprehensive response.**" ])

/-- Lines pushed for one result inside the deterministic aggregation. -/
def aggregateResultSection (r : ProviderResult) : List String :=
  ["### " ++ providerName r.provider ++ " (" ++ r.model ++ ")"
  , "", r.content, ""] ++ resultCitationBlock r

/-- Lines pushed for one question group inside the deterministic
aggregation. -/
def aggregateQuestionSection (n : Nat) (qid : String)
    (group : List ProviderResult) : List String :=
  questionHeading n qid :: "" :: group.flatMap aggregateResultSection

/-- The full line list of the deterministic aggregation
(aggregateWithoutSynthesis in the synthesis module). -/
def aggregateSections (results : List ProviderResult) : List String :=
  let successfulResults := results.filter fun r => !(errTruthy r)
  [ "# Aggregated Research Results"
  , ""
  , "Results from multiple providers (no synthesis performed):"
  , "" ]
  ++ ((mapGroups successfulResults).enum.flatMap fun p =>
        aggregateQuestionSection (p.1 + 1) p.2.1 p.2.2)

/-- Deterministic aggregation of results without synthesis. -/
def aggregateWithoutSynthesis (cost : Provider → String → ℚ) (now : String)
    (results : List ProviderResult) : SynthesisResult :=
  { synthesized := joinLines (aggregateSections results)
    sources := results.filter fun r => !(errTruthy r)
    metrics := calculateMetrics cost results 0
    timestamp := now
    synthModel := "none (aggregation only)" }

/-- Environment of the synthesis stage: whether the OpenAI key for
synthesis is configured, the outcome of the synthesis HTTP call as a
function of model and prompt, the wall-clock latency of that call and
the wall-clock reading for timestamps. -/
structure SynthEnv where
  apiKeyConfigured : Bool
  callOutcome : String → String → Except String String
  synthesisLatencyMs : Nat
  now : String

/-- The synthesize function of the synthesis module. The Bool of the
returned pair records whether the synthesis HTTP call was issued; the
Except error is the thrown error message. -/
def synthesize (cost : Provider → String → ℚ) (env : SynthEnv)
    (results : List ProviderResult) (synthModel : String) :
    Except String SynthesisResult × Bool :=
  if ¬ env.apiKeyConfigured then
    (.error "OpenAI API key not configured for synthesis", false)
  else
    let successfulResults := results.filter fun r => !(errTruthy r)
    match successfulResults with
    | [] => (.error "No successful results to synthesize", false)
    | [result] =>
        (.ok { synthesized := result.content
               sources := [result]
               metrics := calculateMetrics cost results 0
               timestamp := env.now
               synthModel := "none (single result)" }, false)
    | r₁ :: r₂ :: rest =>
        let prompt := buildSynthesisPrompt (r₁ :: r₂ :: rest)
        match env.callOutcome synthModel prompt with
        | .ok synthesized =>
            (.ok { synthesized := synthesized
                   sources := r₁ :: r₂ :: rest
                   metrics := calculateMetrics cost results env.synthesisLatencyMs
                   timestamp := env.now
                   synthModel := synthModel }, true)
        | .error message =>
            (.error ("Synthesis failed: " ++ message), true)

/-! ## Status snapshot (researchRun lines 225 to 280) -/

/-- Fixed key order of the provider record in the source. -/
def allProviders : List Provider :=
  [.openai, .gemini, .perplexity, .deepseek]

/-- Per-provider status from results (createProviderStatus in the
researchRun tool). -/
def createProviderStatus (cost : Provider → String → ℚ)
    (provider : Provider) (results : List ProviderResult) : ProviderStatus :=
  let successful := results.filter fun r => !(errTruthy r)
  let failed := results.filter errTruthy
  { provider := provider
    totalQueries := results.length
    successfulQueries := successful.length
    failedQueries := failed.length
    successRate :=
      if results.length > 0 then (successful.length : ℚ) / results.length else 0
    avgLatencyMs :=
      if successful.length > 0 then
        ((successful.map (·.latencyMs)).sum : ℚ) / successful.length
      else 0
    totalCostUSD := ((successful.map fun r => cost r.provider r.model)).sum }

/-- The status snapshot computed after the join (updateSystemStatus in
the researchRun tool); the source stores it in the module-level slot,
here it is returned. Providers with no queries in the run are filtered
out of the per-provider list. -/
def updateSystemStatus (cost : Provider → String → ℚ) (now : String)
    (results : List ProviderResult) : SystemStatus :=
  let statusFor := fun p =>
    createProviderStatus cost p (results.filter fun r => decide (r.provider = p))
  { providers := (allProviders.map statusFor).filter fun s => s.totalQueries > 0
    lastRunTimestamp := now
    totalQueries := results.length
    totalCostUSD :=
      results.foldl
        (fun sum r => if errTruthy r then sum else sum + cost r.provider r.model)
        0 }

/-! ## researchRun (lines 114 to 220)

The modelled slice ends at the synthesis result: the final switch on the
output format only renders the synthesis result (or throws on an
unknown format) and is not needed by any claim. -/

/-- Caller configuration of one run (ResearchRunConfig in types, the
fields researchRun destructures). Optional fields model the defaulted
destructuring of the source. -/
structure ResearchRunConfig where
  providers : List Provider
  questions : List ResearchQuery
  synthesis : Bool
  synthModel : Option String := none
  timeoutMs : Option Nat := none
  maxRetries : Option Nat := none

/-- Everything one run produces up to the synthesis result. -/
structure RunOutcome where
  results : List ProviderResult
  status : SystemStatus
  synthesisResult : SynthesisResult
  synthCallIssued : Bool
  networkFlags : List Bool

/-- The synthesis step of researchRun (lines 163 to 187): when synthesis
is requested, call synthesize inside try, and on any thrown error fall
back to the aggregation without synthesis; when synthesis is not
requested, aggregate directly. The Bool records whether the synthesis
HTTP call was issued. -/
def runSynthesis (cost : Provider → String → ℚ) (senv : SynthEnv)
    (results : List ProviderResult) (synthesis : Bool)
    (synthModel : String) : SynthesisResult × Bool :=
  if synthesis then
    match synthesize cost senv results synthModel with
    | (.ok s, issued) => (s, issued)
    | (.error _, issued) =>
        (aggregateWithoutSynthesis cost senv.now results, issued)
  else
    (aggregateWithoutSynthesis cost senv.now results, false)

/-- The researchRun tool: validate inputs, build the task matrix, run
every task, join, update the status snapshot, then synthesize or
aggregate. The destructured timeout and retry options are bound to
underscore-prefixed names in the source and never used again, exactly
as modelled here. -/
def researchRun (cost : Provider → String → ℚ) (env : AdapterEnv)
    (senv : SynthEnv) (config : ResearchRunConfig) :
    Except String RunOutcome :=
  let _timeoutMs := config.timeoutMs.getD 60000
  let _maxRetries := config.maxRetries.getD 3
  let synthModel := config.synthModel.getD "gpt-5-mini"
  if config.providers.length = 0 then
    .error "At least one provider must be specified"
  else if config.questions.length = 0 then
    .error "At least one question must be specified"
  else
    let providerResults := runResults env config.providers config.questions
    let status := updateSystemStatus cost env.now providerResults
    let sr := runSynthesis cost senv providerResults config.synthesis synthModel
    .ok { results := providerResults
          status := status
          synthesisResult := sr.1
          synthCallIssued := sr.2
          networkFlags := runNetworkFlags env config.providers config.questions }

/-! ## HTTP executor (src/src/utils/http.ts)

One outbound call is an element of the environment: for every attempt
index the environment says whether the fetch promise resolved (with an
HTTP status, status text and parsed body) or rejected (with an error
name and message — a timeout abort carries the name AbortError, a
generic network failure carries a message containing the text
fetch failed), and how much wall-clock time the attempt took. -/

/-- Default configuration values of the http module. -/
def DEFAULT_TIMEOUT_MS : Nat := 30000

/-- Default retry count of the http module. -/
def DEFAULT_MAX_RETRIES : Nat := 3

/-- Default backoff base of the http module. -/
def DEFAULT_BACKOFF_BASE : Nat := 250

/-- Configuration of one call through fetchWithRetry with the defaulted
destructuring of the source. -/
structure RetryConfig where
  timeoutMs : Nat := DEFAULT_TIMEOUT_MS
  maxRetries : Nat := DEFAULT_MAX_RETRIES
  backoffBase : Nat := DEFAULT_BACKOFF_BASE
deriving DecidableEq, Repr

/-- Raw outcome of one fetch attempt as the environment supplies it. -/
inductive FetchOutcome
  | resolved (status : Nat) (statusText : String) (data : String)
      (durationMs : Nat)
  | rejected (name : String) (message : String) (durationMs : Nat)
deriving DecidableEq, Repr

/-- Wall-clock duration of one attempt. -/
def FetchOutcome.durationMs : FetchOutcome → Nat
  | .resolved _ _ _ d => d
  | .rejected _ _ d => d

/-- The error caught inside one loop iteration of fetchWithRetry: either
the rejection itself, or the error thrown on a non-ok HTTP status, which
carries the status and the parsed body. -/
structure AttemptFailure where
  name : String
  message : String
  status : Option Nat
  data : Option String
deriving DecidableEq, Repr

/-- Successful return value of fetchWithRetry (HTTPResponse in types,
headers omitted). -/
structure HTTPResponse where
  status : Nat
  data : String
  latencyMs : Nat
deriving DecidableEq, Repr

/-- Evaluate one attempt: a resolved fetch with an ok status (200 to
299) succeeds; a resolved fetch with any other status throws an error
message of shape HTTP status colon statusText carrying status and body;
a rejected fetch throws the rejection. -/
def attemptEval : FetchOutcome → Except AttemptFailure HTTPResponse
  | .resolved status statusText data durationMs =>
      if 200 ≤ status ∧ status ≤ 299 then
        .ok { status := status, data := data, latencyMs := durationMs }
      else
        .error { name := "Error"
                 message := "HTTP " ++ toString status ++ ": " ++ statusText
                 status := some status
                 data := some data }
  | .rejected name message _ =>
      .error { name := name, message := message, status := none, data := none }

/-- Substring test, modelling the String includes test of the source. -/
def strContains (hay needle : String) : Bool :=
  decide (needle.data <:+: hay.data)

/-- Retryability classification of a caught attempt failure: timeout
abort, generic network failure, HTTP 5xx or HTTP 429. -/
def isRetryableFailure (e : AttemptFailure) : Bool :=
  let isTimeout := e.name == "AbortError"
  let isNetworkError := strContains e.message "fetch failed"
  let is5xxError :=
    match e.status with
    | some s => decide (500 ≤ s ∧ s < 600)
    | none => false
  let is429Error :=
    match e.status with
    | some s => s == 429
    | none => false
  isTimeout || isNetworkError || is5xxError || is429Error

/-- Exponential backoff delay of the http module: the base doubled per
attempt, capped at 2000, plus the sampled jitter (the source samples
uniformly below 100). -/
def calculateBackoff (attempt : Nat) (baseMs : Nat) (jitter : Nat) : Nat :=
  min (baseMs * 2 ^ attempt) 2000 + jitter

/-- The enriched error surfaced by fetchWithRetry. -/
structure EnrichedError where
  message : String
  originalMessage : String
  url : String
  attempts : Nat
  totalTimeMs : Nat
  status : Option Nat
  data : Option String
deriving DecidableEq, Repr

/-- Enrich an attempt failure with context, as enrichError of the http
module; the attempts argument receives the loop index of the final
attempt at every call site of the source. -/
def enrichError (e : AttemptFailure) (url : String)
    (attempts totalTimeMs : Nat) : EnrichedError :=
  { message :=
      "HTTP request failed after " ++ toString attempts ++ " attempts ("
        ++ toString totalTimeMs ++ "ms): " ++ e.message
    originalMessage := e.message
    url := url
    attempts := attempts
    totalTimeMs := totalTimeMs
    status := e.status
    data := e.data }

/-- Observable result of one call through fetchWithRetry: the value or
enriched error, the number of attempts actually performed, and the list
of backoff waits in order. -/
structure RetryResult where
  outcome : Except EnrichedError HTTPResponse
  attemptsMade : Nat
  waits : List Nat

/-- The retry loop of fetchWithRetry. The arguments after the
environment are the attempts remaining after the current one
(maxRetries minus the current attempt index, so the source guard
attempt equal to maxRetries is remaining equal to zero), the current
attempt index, and the elapsed time accumulated so far. With no attempt
remaining, any failure is thrown enriched; otherwise a retryable
failure waits the backoff and loops. -/
def fetchLoop (env : Nat → FetchOutcome) (jitter : Nat → Nat) (url : String)
    (backoffBase : Nat) : Nat → Nat → Nat → RetryResult
  | 0, attempt, elapsed =>
    (match attemptEval (env attempt) with
    | .ok resp => { outcome := .ok resp, attemptsMade := 1, waits := [] }
    | .error e =>
        { outcome := .error (enrichError e url attempt
            (elapsed + (env attempt).durationMs))
          attemptsMade := 1
          waits := [] })
  | left + 1, attempt, elapsed =>
    (match attemptEval (env attempt) with
    | .ok resp => { outcome := .ok resp, attemptsMade := 1, waits := [] }
    | .error e =>
        if isRetryableFailure e then
          let backoffMs := calculateBackoff attempt backoffBase (jitter attempt)
          let rest :=
            fetchLoop env jitter url backoffBase left (attempt + 1)
              (elapsed + (env attempt).durationMs + backoffMs)
          { outcome := rest.outcome
            attemptsMade := rest.attemptsMade + 1
            waits := backoffMs :: rest.waits }
        else
          { outcome := .error (enrichError e url attempt
              (elapsed + (env attempt).durationMs))
            attemptsMade := 1
            waits := [] })

/-- Execute one HTTP request with retry logic: attempt indices start at
zero, maxRetries attempts remain after the first, no time elapsed yet. -/
def fetchWithRetry (env : Nat → FetchOutcome) (jitter : Nat → Nat)
    (url : String) (cfg : RetryConfig) : RetryResult :=
  fetchLoop env jitter url cfg.backoffBase cfg.maxRetries 0 0

/-- The HTTP options every one of the four provider adapters passes to
httpPost at its single call site: timeoutMs 60000 and maxRetries 3,
with the backoff base falling back to the http module default. These
constants are written literally in the adapters and do not depend on
the run configuration (the adapter query signature has no timeout or
retry parameter at all). -/
def adapterCallConfig : Provider → RetryConfig :=
  fun _ => { timeoutMs := 60000, maxRetries := 3, backoffBase := DEFAULT_BACKOFF_BASE }

/-! ## Concurrency governor configuration
(src/.history/src/utils/rateLimit_20251026124359.ts)

The two throttling libraries themselves are external; what the source
owns is their configuration: the global concurrency cap, the
per-provider caps and spacing, and the three functions that read and
mutate the per-provider minimum spacing. The mutable spacing is the
state threaded below. -/

/-- Global concurrency limit. -/
def GLOBAL_CONCURRENCY : Nat := 6

/-- Default per-provider minimum spacing between dispatch starts. -/
def PROVIDER_MIN_TIME_MS : Nat := 500

/-- Per-provider concurrency cap passed to every limiter. -/
def PROVIDER_MAX_CONCURRENT : Nat := 2

/-- The mutable per-provider limiter configuration: the current minimum
spacing of each provider. -/
structure RateLimitState where
  minTime : Provider → Nat

/-- The state the module initializes every limiter with. -/
def initialRateLimitState : RateLimitState :=
  { minTime := fun _ => PROVIDER_MIN_TIME_MS }

/-- Overwrite the minimum spacing of one provider
(updateProviderRateLimit in the source). -/
def updateProviderRateLimit (s : RateLimitState) (provider : Provider)
    (minTimeMs : Nat) : RateLimitState :=
  { minTime := fun q => if q = provider then minTimeMs else s.minTime q }

/-- Double the spacing of a provider that returned HTTP 429, capped at
5000 (handleRateLimitError in the source). -/
def handleRateLimitError (s : RateLimitState) (provider : Provider) :
    RateLimitState :=
  updateProviderRateLimit s provider (min (s.minTime provider * 2) 5000)

/-- Restore the default spacing of one provider
(resetProviderRateLimit in the source). -/
def resetProviderRateLimit (s : RateLimitState) (provider : Provider) :
    RateLimitState :=
  updateProviderRateLimit s provider PROVIDER_MIN_TIME_MS

/-- One run with the governor state threaded through it. Neither
fetchWithRetry nor any code on the researchRun path references
handleRateLimitError or updateProviderRateLimit — the two functions
have no caller anywhere in the source tree — so a run returns the
limiter configuration exactly as it found it. -/
def researchRunGov (cost : Provider → String → ℚ) (env : AdapterEnv)
    (senv : SynthEnv) (config : ResearchRunConfig) (s : RateLimitState) :
    Except String RunOutcome × RateLimitState :=
  (researchRun cost env senv config, s)

/-! ## Observation helpers and concrete environments

Projections used to state closed facts about run outcomes, and the
concrete environments the witnesses and counterexamples evaluate the
model on. -/

/-- Synthesis model tag of a finished run, when the run succeeded. -/
def runSynthModelOf (out : Except String RunOutcome) : Option String :=
  match out with
  | .ok o => some o.synthesisResult.synthModel
  | .error _ => none

/-- Synthesized text of a finished run, when the run succeeded. -/
def runSynthesizedOf (out : Except String RunOutcome) : Option String :=
  match out with
  | .ok o => some o.synthesisResult.synthesized
  | .error _ => none

/-- The provider and questionId tag pairs of the results of a finished
run, when the run succeeded. -/
def runPairsOf (out : Except String RunOutcome) :
    Option (List (Provider × String)) :=
  match out with
  | .ok o => some (o.results.map fun r => (r.provider, r.questionId))
  | .error _ => none

/-- The attempts field of the enriched error of a retry result, when the
call failed. -/
def retryAttemptsField (r : RetryResult) : Option Nat :=
  match r.outcome with
  | .error e => some e.attempts
  | .ok _ => none

/-- A sample question. -/
def q1 : ResearchQuery := { id := "q1", text := "What is quantum computing?" }

/-- A second sample question. -/
def q2 : ResearchQuery := { id := "q2", text := "What is a lattice?" }

/-- A sample static cost table. -/
def cost1 : Provider → String → ℚ := fun _ _ => 1

/-- Environment in which no provider is configured. -/
def envUnconfigured : AdapterEnv :=
  { validateConfig := fun _ => false
    getDefaultModel := fun _ => "gpt-5-mini"
    query := fun _ _ _ _ => .error "unreachable"
    now := "2025-10-26T00:00:00Z" }

/-- Environment in which openai answers and every other provider call
rejects. -/
def envOneSuccess : AdapterEnv :=
  { validateConfig := fun _ => true
    getDefaultModel := fun _ => "gpt-5-mini"
    query := fun p _ _ _ =>
      if p = .openai then .ok (.answered "A qubit..." none none 500 "T1")
      else .error "boom"
    now := "2025-10-26T00:00:00Z" }

/-- Environment in which openai resolves with empty content and no
error, as an adapter does when the provider response carries no
choices. -/
def envEmptyContent : AdapterEnv :=
  { validateConfig := fun _ => true
    getDefaultModel := fun _ => "gpt-5-mini"
    query := fun _ _ _ _ => .ok (.answered "" none none 3 "T1")
    now := "2025-10-26T00:00:00Z" }

/-- Environment in which every provider call fails with a rate-limit
error surfaced by the executor. -/
def envAll429 : AdapterEnv :=
  { validateConfig := fun _ => true
    getDefaultModel := fun _ => "gpt-5-mini"
    query := fun _ _ _ _ => .error "HTTP 429: Too Many Requests"
    now := "2025-10-26T00:00:00Z" }

/-- Synthesis environment whose HTTP call fails. -/
def senvCallFails : SynthEnv :=
  { apiKeyConfigured := true
    callOutcome := fun _ _ => .error "HTTP 500: Internal Server Error"
    synthesisLatencyMs := 7
    now := "2025-10-26T00:00:01Z" }

/-- Fetch environment answering HTTP 429 on every attempt. -/
def fetch429 : Nat → FetchOutcome :=
  fun _ => .resolved 429 "Too Many Requests" "rate limited" 10

/-- The failure fetch429 produces on every attempt. -/
def fetch429Failure : Nat → AttemptFailure :=
  fun _ =>
    { name := "Error"
      message := "HTTP 429: Too Many Requests"
      status := some 429
      data := some "rate limited" }

/-- Fetch environment answering HTTP 404 on every attempt. -/
def fetch404 : Nat → FetchOutcome :=
  fun _ => .resolved 404 "Not Found" "missing" 10

/-- A sample jitter sequence below the sampling bound. -/
def jitter5 : Nat → Nat := fun _ => 5

/-- The spec invariant on one AnswerResult, with the absent error read
as the empty string: exactly one of content and error is non-empty. -/
def exactlyOneSet (r : ProviderResult) : Bool :=
  (r.content != "" && r.error.getD "" == "")
    || (r.content == "" && r.error.getD "" != "")

/-- The result envOneSuccess produces for openai on the sample
question. -/
def rOpenai : ProviderResult :=
  { provider := .openai, model := "gpt-5-mini", questionId := "q1"
    content := "A qubit...", latencyMs := 500, timestamp := "T1" }

/-- The result envAll429 produces for openai on the sample question. -/
def r429 : ProviderResult :=
  { provider := .openai, model := "gpt-5-mini", questionId := "q1"
    content := "", latencyMs := 0
    timestamp := "2025-10-26T00:00:00Z"
    error := some "HTTP 429: Too Many Requests" }

/-- A run request over one failing provider with synthesis requested. -/
def cfgAll429 : ResearchRunConfig :=
  { providers := [.openai], questions := [q1], synthesis := true }

/-- A run request over two providers of which one succeeds, with
synthesis requested. -/
def cfgOneSuccess : ResearchRunConfig :=
  { providers := [.openai, .gemini], questions := [q1], synthesis := true }

/-- Environment in which openai and gemini both answer and every other
provider call rejects. -/
def envTwoSuccess : AdapterEnv :=
  { validateConfig := fun _ => true
    getDefaultModel := fun _ => "gpt-5-mini"
    query := fun p _ _ _ =>
      if p = .openai then .ok (.answered "A qubit..." none none 500 "T1")
      else if p = .gemini then
        .ok (.answered "Qubits explained." none none 400 "T2")
      else .error "boom"
    now := "2025-10-26T00:00:00Z" }

/-- A run request over the two answering providers with synthesis
requested. -/
def cfgTwoSuccess : ResearchRunConfig :=
  { providers := [.openai, .gemini], questions := [q1], synthesis := true }

/-- The result envTwoSuccess produces for gemini on the sample
question. -/
def rGemini : ProviderResult :=
  { provider := .gemini, model := "gpt-5-mini", questionId := "q1"
    content := "Qubits explained.", latencyMs := 400, timestamp := "T2" }

/-! ## General lemmas about the embedding -/

/-- Every result of executeProviderQuery carries the provider and
question id of its task, and whenever its error field is set its
content is empty. -/
theorem executeProviderQuery_spec (env : AdapterEnv) (p : Provider)
    (q : ResearchQuery) (m : Option String) :
    (executeProviderQuery env p q m).1.provider = p
      ∧ (executeProviderQuery env p q m).1.questionId = q.id
      ∧ ((executeProviderQuery env p q m).1.error.isSome →
          (executeProviderQuery env p q m).1.content = "") := by
  unfold executeProviderQuery
  split
  · simp
  · cases henv : env.query p q.text (m.getD (env.getDefaultModel p)) q.id with
    | ok reply => cases reply <;> simp [henv, mkAdapterResult]
    | error msg => simp [henv]

/-- Shape of a run on non-empty inputs: the validation branches are not
taken and the outcome is assembled from the task results, the status
snapshot and the synthesis step. -/
theorem researchRun_eq_ok (cost : Provider → String → ℚ) (env : AdapterEnv)
    (senv : SynthEnv) (cfg : ResearchRunConfig)
    (hp : cfg.providers ≠ []) (hq : cfg.questions ≠ []) :
    researchRun cost env senv cfg =
      .ok { results := runResults env cfg.providers cfg.questions
            status := updateSystemStatus cost env.now
              (runResults env cfg.providers cfg.questions)
            synthesisResult := (runSynthesis cost senv
              (runResults env cfg.providers cfg.questions) cfg.synthesis
              (cfg.synthModel.getD "gpt-5-mini")).1
            synthCallIssued := (runSynthesis cost senv
              (runResults env cfg.providers cfg.questions) cfg.synthesis
              (cfg.synthModel.getD "gpt-5-mini")).2
            networkFlags := runNetworkFlags env cfg.providers cfg.questions } := by
  unfold researchRun
  rw [if_neg (fun h => hp (List.length_eq_zero.mp h)),
    if_neg (fun h => hq (List.length_eq_zero.mp h))]

/-- When synthesize throws, the requested synthesis falls back to the
deterministic aggregation. -/
theorem runSynthesis_error {cost : Provider → String → ℚ} {senv : SynthEnv}
    {results : List ProviderResult} {model e : String}
    (h : (synthesize cost senv results model).1 = .error e) :
    runSynthesis cost senv results true model =
      (aggregateWithoutSynthesis cost senv.now results,
       (synthesize cost senv results model).2) := by
  unfold runSynthesis
  rcases hs : synthesize cost senv results model with ⟨out, issued⟩
  rw [hs] at h
  cases out with
  | ok s => exact absurd h (by simp)
  | error msg => simp

/-- When synthesize returns, the requested synthesis uses its result. -/
theorem runSynthesis_ok {cost : Provider → String → ℚ} {senv : SynthEnv}
    {results : List ProviderResult} {model : String} {s : SynthesisResult}
    (h : (synthesize cost senv results model).1 = .ok s) :
    runSynthesis cost senv results true model =
      (s, (synthesize cost senv results model).2) := by
  unfold runSynthesis
  rcases hs : synthesize cost senv results model with ⟨out, issued⟩
  rw [hs] at h
  cases out with
  | ok s₂ => simp at h; subst h; simp
  | error msg => exact absurd h (by simp)

/-- When no result is successful, synthesize throws without issuing the
synthesis call (either the missing-key error or the
no-successful-results error). -/
theorem synthesize_no_success (cost : Provider → String → ℚ)
    (senv : SynthEnv) (results : List ProviderResult) (model : String)
    (h : results.filter (fun r => !(errTruthy r)) = []) :
    (∃ e, (synthesize cost senv results model).1 = Except.error e)
      ∧ (synthesize cost senv results model).2 = false := by
  unfold synthesize
  split
  · exact ⟨⟨_, rfl⟩, rfl⟩
  · rw [h]
    exact ⟨⟨_, rfl⟩, rfl⟩

/-- When exactly one result is successful and the synthesis key is
configured, synthesize passes that content through verbatim, tagged as
single result, without issuing the synthesis call. -/
theorem synthesize_single (cost : Provider → String → ℚ) (senv : SynthEnv)
    (results : List ProviderResult) (model : String) {r : ProviderResult}
    (hkey : senv.apiKeyConfigured = true)
    (h : results.filter (fun r => !(errTruthy r)) = [r]) :
    synthesize cost senv results model =
      (.ok { synthesized := r.content
             sources := [r]
             metrics := calculateMetrics cost results 0
             timestamp := senv.now
             synthModel := "none (single result)" }, false) := by
  unfold synthesize
  rw [if_neg (by simp [hkey]), h]

/-- A result whose error is truthy contributes nothing to the total
cost of the status snapshot. -/
theorem updateSystemStatus_cons_error_cost (cost : Provider → String → ℚ)
    (now : String) (r : ProviderResult) (rest : List ProviderResult)
    (h : errTruthy r = true) :
    (updateSystemStatus cost now (r :: rest)).totalCostUSD =
      (updateSystemStatus cost now rest).totalCostUSD := by
  simp [updateSystemStatus, h]

/-- The task matrix is the cartesian product of providers and
questions, provider-major. -/
theorem buildTasks_eq_product (providers : List Provider)
    (questions : List ResearchQuery) :
    buildTasks providers questions = providers ×ˢ questions := rfl

/-- A run produces one result per task: the result count is the product
of the list sizes. -/
theorem runResults_length (env : AdapterEnv) (providers : List Provider)
    (questions : List ResearchQuery) :
    (runResults env providers questions).length =
      providers.length * questions.length := by
  unfold runResults
  rw [List.length_map, buildTasks_eq_product]
  exact List.length_product _ _

/-- The provider and question id tags of the run results are exactly
the cartesian product of the providers with the question ids. -/
theorem runResults_pairs (env : AdapterEnv) (providers : List Provider)
    (questions : List ResearchQuery) :
    (runResults env providers questions).map
        (fun r => (r.provider, r.questionId)) =
      providers ×ˢ (questions.map ResearchQuery.id) := by
  unfold runResults
  rw [List.map_map, buildTasks_eq_product]
  have hfun : ((fun r : ProviderResult => (r.provider, r.questionId)) ∘
      fun t : Provider × ResearchQuery =>
        (executeProviderQuery env t.1 t.2 none).1)
      = fun t : Provider × ResearchQuery => (t.1, t.2.id) := by
    funext t
    have h := executeProviderQuery_spec env t.1 t.2 none
    simp [Function.comp, h.1, h.2.1]
  rw [hfun]
  show (providers.flatMap fun a => questions.map (Prod.mk a)).map _ = _
  rw [List.map_flatMap]
  show _ = providers.flatMap fun a =>
    (questions.map ResearchQuery.id).map (Prod.mk a)
  congr 1
  funext p
  rw [List.map_map, List.map_map]
  rfl

/-! ## Claim C1 -/

/-- C1, counterexample: the claim allows a providers list with a
repeated entry (only the question ids are required distinct), and such
a run duplicates the provider and question id pair. -/
theorem taskMatrix_duplicate_provider_counterexample :
    runPairsOf (researchRun cost1 envOneSuccess senvCallFails
      { providers := [.openai, .openai], questions := [q1]
        synthesis := false })
      = some [(Provider.openai, "q1"), (Provider.openai, "q1")]
    ∧ ¬ ([(Provider.openai, "q1"), (Provider.openai, "q1")] :
        List (Provider × String)).Nodup :=
  ⟨rfl, by decide⟩

/-- C1, amended: for every run on non-empty, pairwise-distinct providers
and non-empty questions with pairwise-distinct ids, the run succeeds
and produces exactly one AnswerResult per provider and question pair:
the count is the product of the sizes, the tag pairs are distinct, and
every pair occurs — whatever the adapters answer, including
unconfigured providers and failing calls. -/
theorem taskMatrix_complete (cost : Provider → String → ℚ)
    (env : AdapterEnv) (senv : SynthEnv) (cfg : ResearchRunConfig)
    (hp : cfg.providers ≠ []) (hq : cfg.questions ≠ [])
    (hnp : cfg.providers.Nodup)
    (hnq : (cfg.questions.map ResearchQuery.id).Nodup) :
    ∃ o, researchRun cost env senv cfg = .ok o
      ∧ o.results.length = cfg.providers.length * cfg.questions.length
      ∧ (o.results.map fun r => (r.provider, r.questionId)).Nodup
      ∧ ∀ p ∈ cfg.providers, ∀ q ∈ cfg.questions,
          (p, q.id) ∈ o.results.map fun r => (r.provider, r.questionId) := by
  refine ⟨_, researchRun_eq_ok cost env senv cfg hp hq, ?_, ?_, ?_⟩
  · exact runResults_length env cfg.providers cfg.questions
  · rw [runResults_pairs]
    exact List.Nodup.product hnp hnq
  · intro p hpmem q hqmem
    rw [runResults_pairs]
    exact List.pair_mem_product.mpr ⟨hpmem, List.mem_map_of_mem _ hqmem⟩

/-- C1, witness: the amended statement instantiated on a concrete
two-provider one-question run in which one provider fails. -/
theorem taskMatrix_complete_witness :
    cfgOneSuccess.providers ≠ [] ∧ cfgOneSuccess.questions ≠ []
    ∧ cfgOneSuccess.providers.Nodup
    ∧ (cfgOneSuccess.questions.map ResearchQuery.id).Nodup
    ∧ ∃ o, researchRun cost1 envOneSuccess senvCallFails cfgOneSuccess = .ok o
        ∧ o.results.length =
            cfgOneSuccess.providers.length * cfgOneSuccess.questions.length
        ∧ (o.results.map fun r => (r.provider, r.questionId)).Nodup
        ∧ ∀ p ∈ cfgOneSuccess.providers, ∀ q ∈ cfgOneSuccess.questions,
            (p, q.id) ∈ o.results.map fun r => (r.provider, r.questionId) :=
  ⟨by decide, by decide, by decide, by decide,
    taskMatrix_complete cost1 envOneSuccess senvCallFails cfgOneSuccess
      (by decide) (by decide) (by decide) (by decide)⟩

/-! ## Claim C2 -/

/-- C2, counterexample: with synthesis requested and zero successful
tasks, the run does not fail — the thrown no-successful-results error is
caught by the try block of researchRun and the run returns the
deterministic aggregation. -/
theorem researchRun_zero_success_not_propagated :
    ((runResults envAll429 cfgAll429.providers cfgAll429.questions).filter
        fun r => !(errTruthy r)) = []
      ∧ runSynthModelOf (researchRun cost1 envAll429 senvCallFails cfgAll429) =
          some "none (aggregation only)" :=
  ⟨rfl, rfl⟩

/-- C2, amended: when synthesis is requested and zero tasks succeed,
synthesize throws, researchRun catches the error and the run returns
the deterministic aggregation instead of failing. -/
theorem researchRun_zero_success_falls_back (cost : Provider → String → ℚ)
    (env : AdapterEnv) (senv : SynthEnv) (cfg : ResearchRunConfig)
    (hp : cfg.providers ≠ []) (hq : cfg.questions ≠ [])
    (hs : cfg.synthesis = true)
    (hfail : ∀ r ∈ runResults env cfg.providers cfg.questions,
      errTruthy r = true) :
    (∃ e, (synthesize cost senv (runResults env cfg.providers cfg.questions)
        (cfg.synthModel.getD "gpt-5-mini")).1 = Except.error e)
    ∧ researchRun cost env senv cfg =
        .ok { results := runResults env cfg.providers cfg.questions
              status := updateSystemStatus cost env.now
                (runResults env cfg.providers cfg.questions)
              synthesisResult := aggregateWithoutSynthesis cost senv.now
                (runResults env cfg.providers cfg.questions)
              synthCallIssued := false
              networkFlags := runNetworkFlags env cfg.providers cfg.questions } := by
  have hfilter : (runResults env cfg.providers cfg.questions).filter
      (fun r => !(errTruthy r)) = [] :=
    List.filter_eq_nil_iff.mpr fun a ha => by simp [hfail a ha]
  obtain ⟨⟨e, he⟩, hissued⟩ :=
    synthesize_no_success cost senv _ (cfg.synthModel.getD "gpt-5-mini")
      hfilter
  refine ⟨⟨e, he⟩, ?_⟩
  rw [researchRun_eq_ok cost env senv cfg hp hq, hs, runSynthesis_error he,
    hissued]

/-- C2, witness: the amended statement instantiated on the concrete
all-fail run. -/
theorem researchRun_zero_success_falls_back_witness :
    cfgAll429.providers ≠ [] ∧ cfgAll429.questions ≠ []
    ∧ cfgAll429.synthesis = true
    ∧ (∀ r ∈ runResults envAll429 cfgAll429.providers cfgAll429.questions,
        errTruthy r = true)
    ∧ ((∃ e, (synthesize cost1 senvCallFails
          (runResults envAll429 cfgAll429.providers cfgAll429.questions)
          (cfgAll429.synthModel.getD "gpt-5-mini")).1 = Except.error e)
       ∧ researchRun cost1 envAll429 senvCallFails cfgAll429 =
          .ok { results := runResults envAll429 cfgAll429.providers cfgAll429.questions
                status := updateSystemStatus cost1 envAll429.now
                  (runResults envAll429 cfgAll429.providers cfgAll429.questions)
                synthesisResult := aggregateWithoutSynthesis cost1 senvCallFails.now
                  (runResults envAll429 cfgAll429.providers cfgAll429.questions)
                synthCallIssued := false
                networkFlags := runNetworkFlags envAll429 cfgAll429.providers cfgAll429.questions }) :=
  ⟨by decide, by decide, rfl, by decide,
    researchRun_zero_success_falls_back cost1 envAll429 senvCallFails cfgAll429
      (by decide) (by decide) rfl (by decide)⟩

/-! ## Claim C4 -/

/-- C4, counterexample: a provider response with empty content and no
error yields an AnswerResult with both fields empty, violating the
exactly-one invariant. -/
theorem answerResult_both_empty_counterexample :
    runResults envEmptyContent [Provider.openai] [q1] =
      [{ provider := .openai, model := "gpt-5-mini", questionId := "q1"
         content := "", citations := none, usage := none, latencyMs := 3
         timestamp := "T1", error := none }]
    ∧ ((runResults envEmptyContent [Provider.openai] [q1]).all
        exactlyOneSet) = false :=
  ⟨rfl, rfl⟩

/-- C4, amended: every AnswerResult a run produces has at most one of
the two fields meaningfully set — whenever the error field is present
the content is empty; both can however be empty at once. -/
theorem answerResult_error_implies_empty_content (env : AdapterEnv)
    (providers : List Provider) (questions : List ResearchQuery) :
    ∀ r ∈ runResults env providers questions,
      r.error.isSome → r.content = "" := by
  intro r hr herr
  unfold runResults at hr
  obtain ⟨t, _, rfl⟩ := List.mem_map.mp hr
  exact (executeProviderQuery_spec env t.1 t.2 none).2.2 herr

/-- C4, witness: the amended statement applied to a concrete failed
result of the all-fail run. -/
theorem answerResult_error_implies_empty_content_witness :
    r429 ∈ runResults envAll429 [Provider.openai] [q1]
    ∧ r429.error.isSome ∧ r429.content = "" :=
  ⟨by decide, by decide,
    answerResult_error_implies_empty_content envAll429 [Provider.openai] [q1]
      r429 (by decide) (by decide)⟩

/-! ## Claim C5 -/

/-- C5, counterexample: the unconfigured-provider error message of the
code is provider followed by API key not configured, not the shorter
message of the claim. -/
theorem unconfigured_error_message_counterexample :
    (executeProviderQuery envUnconfigured Provider.openai q1 none).1.error =
      some "openai API key not configured"
    ∧ "openai API key not configured" ≠ "openai not configured" :=
  ⟨rfl, by decide⟩

/-- C5, amended: an unconfigured provider yields an AnswerResult whose
error is provider followed by API key not configured, with zero
latency, no invocation of the governor or executor, and zero
contribution to the total cost of the status snapshot. -/
theorem unconfigured_provider_result (env : AdapterEnv) (p : Provider)
    (q : ResearchQuery) (h : env.validateConfig p = false) :
    executeProviderQuery env p q none =
      ({ provider := p, model := env.getDefaultModel p, questionId := q.id
         content := "", citations := none, usage := none, latencyMs := 0
         timestamp := env.now
         error := some (providerName p ++ " API key not configured") }, false)
    ∧ ∀ (cost : Provider → String → ℚ) (now : String)
        (rest : List ProviderResult),
        (updateSystemStatus cost now
            ((executeProviderQuery env p q none).1 :: rest)).totalCostUSD =
          (updateSystemStatus cost now rest).totalCostUSD := by
  have hexec : executeProviderQuery env p q none =
      ({ provider := p, model := env.getDefaultModel p, questionId := q.id
         content := "", citations := none, usage := none, latencyMs := 0
         timestamp := env.now
         error := some (providerName p ++ " API key not configured") }, false) := by
    unfold executeProviderQuery
    rw [if_pos (by simp [h])]
    rfl
  refine ⟨hexec, fun cost now rest => ?_⟩
  apply updateSystemStatus_cons_error_cost
  rw [hexec]
  simp only [errTruthy]
  cases p <;> decide

/-- C5, witness: the amended statement instantiated on the concrete
unconfigured environment. -/
theorem unconfigured_provider_result_witness :
    envUnconfigured.validateConfig Provider.openai = false
    ∧ executeProviderQuery envUnconfigured Provider.openai q1 none =
      ({ provider := .openai, model := "gpt-5-mini", questionId := "q1"
         content := "", citations := none, usage := none, latencyMs := 0
         timestamp := "2025-10-26T00:00:00Z"
         error := some ("openai" ++ " API key not configured") }, false)
    ∧ (updateSystemStatus cost1 "t"
        ((executeProviderQuery envUnconfigured Provider.openai q1 none).1 :: [])).totalCostUSD =
      (updateSystemStatus cost1 "t" []).totalCostUSD := by
  have h := unconfigured_provider_result envUnconfigured Provider.openai q1 rfl
  exact ⟨rfl, h.1, h.2 cost1 "t" []⟩

/-! ## Claim C8 -/

/-- C8, counterexample: a run in which a provider call returned HTTP 429
leaves the spacing of that provider unchanged at 500 instead of
doubling it — the doubling operation exists but is never invoked. -/
theorem rateLimit_429_untouched_counterexample :
    (runResults envAll429 [Provider.openai] [q1]).map ProviderResult.error =
      [some "HTTP 429: Too Many Requests"]
    ∧ ((researchRunGov cost1 envAll429 senvCallFails
        { providers := [.openai], questions := [q1], synthesis := false }
        initialRateLimitState).2).minTime .openai = 500
    ∧ (500 : Nat) ≠ min (500 * 2) 5000 :=
  ⟨rfl, rfl, by decide⟩

/-- C8, amended: the governor offers handleRateLimitError, which doubles
the spacing of the given provider capped at 5000 and leaves the others
unchanged, and resetProviderRateLimit, which restores the default 500;
but no code invokes them during a run — a run returns the limiter
configuration exactly as it found it, whatever the providers
answered. -/
theorem rateLimit_operations (s : RateLimitState) (p : Provider) :
    (handleRateLimitError s p).minTime p = min (s.minTime p * 2) 5000
    ∧ (∀ q, q ≠ p → (handleRateLimitError s p).minTime q = s.minTime q)
    ∧ (resetProviderRateLimit s p).minTime p = PROVIDER_MIN_TIME_MS
    ∧ ∀ (cost : Provider → String → ℚ) (env : AdapterEnv) (senv : SynthEnv)
        (config : ResearchRunConfig),
        (researchRunGov cost env senv config s).2 = s :=
  ⟨by simp [handleRateLimitError, updateProviderRateLimit],
   fun q hq => by simp [handleRateLimitError, updateProviderRateLimit, hq],
   by simp [resetProviderRateLimit, updateProviderRateLimit],
   fun _ _ _ _ => rfl⟩

/-- C8, witness: the amended statement applied at the initial state and
openai, including the side condition of the unchanged-other-providers
part. -/
theorem rateLimit_operations_witness :
    (handleRateLimitError initialRateLimitState .openai).minTime .openai =
      min (initialRateLimitState.minTime .openai * 2) 5000
    ∧ Provider.gemini ≠ Provider.openai
    ∧ (handleRateLimitError initialRateLimitState .openai).minTime .gemini =
        initialRateLimitState.minTime .gemini
    ∧ (resetProviderRateLimit initialRateLimitState .openai).minTime .openai =
        PROVIDER_MIN_TIME_MS
    ∧ (researchRunGov cost1 envAll429 senvCallFails cfgAll429
        initialRateLimitState).2 = initialRateLimitState := by
  have h := rateLimit_operations initialRateLimitState .openai
  exact ⟨h.1, by decide, h.2.1 .gemini (by decide), h.2.2.1,
    h.2.2.2 cost1 envAll429 senvCallFails cfgAll429⟩

/-! ## Claim C9 -/

/-- C9, counterexample: a run invoked with timeoutMs 1234 and maxRetries
0 behaves identically to one invoked with 60000 and 3 — the options are
ignored — while the provider call of that run is issued (flag true)
with the fixed adapter configuration whose timeout is 60000, not
1234. -/
theorem run_options_ignored_counterexample :
    researchRun cost1 envOneSuccess senvCallFails
      { providers := [Provider.openai], questions := [q1], synthesis := false
        timeoutMs := some 1234, maxRetries := some 0 }
    = researchRun cost1 envOneSuccess senvCallFails
      { providers := [Provider.openai], questions := [q1], synthesis := false
        timeoutMs := some 60000, maxRetries := some 3 }
    ∧ runNetworkFlags envOneSuccess [Provider.openai] [q1] = [true]
    ∧ (adapterCallConfig Provider.openai).timeoutMs = 60000
    ∧ (1234 : Nat) ≠ 60000 :=
  ⟨rfl, rfl, rfl, by decide⟩

/-- C9, amended: researchRun accepts timeoutMs (default 60000) and
maxRetries (default 3) but never uses them — any two runs differing
only in these options coincide — and every provider call is issued with
the fixed per-adapter configuration of timeoutMs 60000 and maxRetries
3. -/
theorem run_options_ignored (cost : Provider → String → ℚ) (env : AdapterEnv)
    (senv : SynthEnv) (cfg : ResearchRunConfig) (t m : Option Nat) :
    researchRun cost env senv { cfg with timeoutMs := t, maxRetries := m } =
      researchRun cost env senv cfg
    ∧ ∀ p, adapterCallConfig p =
        { timeoutMs := 60000, maxRetries := 3
          backoffBase := DEFAULT_BACKOFF_BASE } :=
  ⟨rfl, fun _ => rfl⟩

/-! ## Claim C10 -/

/-- C10, counterexample: a run with exactly one successful provider but
synthesis not requested returns the aggregation tag, not the
single-result tag — the single-result passthrough only runs inside
synthesize. -/
theorem single_success_without_synthesis_counterexample :
    ((runResults envOneSuccess [Provider.openai, Provider.gemini] [q1]).filter
        fun x => !(errTruthy x)).length = 1
    ∧ runSynthModelOf (researchRun cost1 envOneSuccess senvCallFails
        { providers := [.openai, .gemini], questions := [q1]
          synthesis := false }) = some "none (aggregation only)"
    ∧ ("none (aggregation only)" : String) ≠ "none (single result)" :=
  ⟨by decide, rfl, by decide⟩

/-- C10, amended: when synthesis is requested, the synthesis key is
configured and exactly one provider query succeeds, the run returns
that content verbatim tagged none (single result), with no synthesis
call issued. -/
theorem single_success_passthrough (cost : Provider → String → ℚ)
    (env : AdapterEnv) (senv : SynthEnv) (cfg : ResearchRunConfig)
    (r : ProviderResult)
    (hp : cfg.providers ≠ []) (hq : cfg.questions ≠ [])
    (hs : cfg.synthesis = true) (hkey : senv.apiKeyConfigured = true)
    (hone : (runResults env cfg.providers cfg.questions).filter
      (fun x => !(errTruthy x)) = [r]) :
    researchRun cost env senv cfg =
      .ok { results := runResults env cfg.providers cfg.questions
            status := updateSystemStatus cost env.now
              (runResults env cfg.providers cfg.questions)
            synthesisResult :=
              { synthesized := r.content
                sources := [r]
                metrics := calculateMetrics cost
                  (runResults env cfg.providers cfg.questions) 0
                timestamp := senv.now
                synthModel := "none (single result)" }
            synthCallIssued := false
            networkFlags := runNetworkFlags env cfg.providers cfg.questions } := by
  have hsyn := synthesize_single cost senv _ (cfg.synthModel.getD "gpt-5-mini")
    hkey hone
  rw [researchRun_eq_ok cost env senv cfg hp hq, hs,
    runSynthesis_ok (show _ = Except.ok _ by rw [hsyn]), hsyn]

/-- C10, witness: the amended statement instantiated on the concrete
one-success run. -/
theorem single_success_passthrough_witness :
    cfgOneSuccess.synthesis = true
    ∧ senvCallFails.apiKeyConfigured = true
    ∧ ((runResults envOneSuccess cfgOneSuccess.providers
        cfgOneSuccess.questions).filter fun x => !(errTruthy x)) = [rOpenai]
    ∧ runSynthModelOf (researchRun cost1 envOneSuccess senvCallFails
        cfgOneSuccess) = some "none (single result)"
    ∧ runSynthesizedOf (researchRun cost1 envOneSuccess senvCallFails
        cfgOneSuccess) = some rOpenai.content := by
  have h := single_success_passthrough cost1 envOneSuccess senvCallFails
    cfgOneSuccess rOpenai (by decide) (by decide) rfl rfl (by decide)
  refine ⟨rfl, rfl, by decide, ?_, ?_⟩
  · rw [h]; rfl
  · rw [h]; rfl

/-! ## Claim C3 -/

/-- Membership through the insertion fold behind firstKeys. -/
theorem mem_foldl_insert (l : List String) :
    ∀ (acc : List String) (x : String),
      (x ∈ l.foldl (fun acc k => if k ∈ acc then acc else acc ++ [k]) acc)
        ↔ x ∈ acc ∨ x ∈ l := by
  induction l with
  | nil => intro acc x; simp
  | cons k rest ih =>
    intro acc x
    rw [List.foldl_cons]
    by_cases hk : k ∈ acc
    · rw [if_pos hk, ih]
      constructor
      · rintro (h | h)
        · exact Or.inl h
        · exact Or.inr (List.mem_cons_of_mem _ h)
      · rintro (h | h)
        · exact Or.inl h
        · rcases List.mem_cons.mp h with rfl | h2
          · exact Or.inl hk
          · exact Or.inr h2
    · rw [if_neg hk, ih]
      simp only [List.mem_append, List.mem_singleton, List.mem_cons]
      tauto

/-- Every key of the grouped list appears among the Map keys. -/
theorem mem_firstKeys {l : List String} {x : String} (h : x ∈ l) :
    x ∈ firstKeys l := by
  unfold firstKeys
  rw [mem_foldl_insert]
  exact Or.inr h

/-- The block contributed by one element is a sublist of the
concatenation over the whole list. -/
theorem sublist_flatMap_of_mem {α β : Type _} (l : List α) (f : α → List β)
    (x : α) (hx : x ∈ l) : (f x).Sublist (l.flatMap f) := by
  obtain ⟨s, t, rfl⟩ := List.append_of_mem hx
  rw [List.flatMap_append, List.flatMap_cons]
  exact (List.sublist_append_left _ _).trans (List.sublist_append_right _ _)

/-- Every line of a line list is a contiguous substring of the joined
text. -/
theorem infix_joinLines {l : List String} {x : String} (h : x ∈ l) :
    x.data <:+: (joinLines l).data := by
  induction l with
  | nil => cases h
  | cons s rest ih =>
    rcases List.mem_cons.mp h with rfl | hmem
    · cases rest with
      | nil => exact List.infix_rfl
      | cons t ts =>
        show x.data <:+: (x ++ "\n" ++ joinLines (t :: ts)).data
        rw [String.data_append, String.data_append, List.append_assoc]
        exact (List.prefix_append _ _).isInfix
    · cases rest with
      | nil => cases hmem
      | cons t ts =>
        show x.data <:+: (s ++ "\n" ++ joinLines (t :: ts)).data
        rw [String.data_append, String.data_append]
        exact (ih hmem).trans (List.suffix_append _ _).isInfix

set_option maxHeartbeats 2000000 in
/-- Every successful result contributes its content to the
deterministic aggregation, under the heading of its question: the
heading line followed by the content occurs in order among the
aggregation lines, and the content is a contiguous substring of the
joined report. -/
theorem aggregate_heading_and_content {results : List ProviderResult}
    {r : ProviderResult} (hr : r ∈ results) (hs : errTruthy r = false) :
    ∃ n, ([questionHeading n r.questionId, r.content].Sublist
        (aggregateSections results))
      ∧ r.content.data <:+: (joinLines (aggregateSections results)).data := by
  have hrL : r ∈ results.filter (fun x => !(errTruthy x)) :=
    List.mem_filter.mpr ⟨hr, by simp [hs]⟩
  have hqid : r.questionId ∈ firstKeys
      ((results.filter fun x => !(errTruthy x)).map fun x => x.questionId) :=
    mem_firstKeys (List.mem_map_of_mem _ hrL)
  have hpair : (r.questionId,
      (results.filter fun x => !(errTruthy x)).filter
        fun x => x.questionId == r.questionId)
      ∈ mapGroups (results.filter fun x => !(errTruthy x)) := by
    unfold mapGroups
    exact List.mem_map_of_mem _ hqid
  obtain ⟨j, hj, hgetj⟩ := List.mem_iff_getElem.mp hpair
  have hj2 : j <
      (mapGroups (results.filter fun x => !(errTruthy x))).enum.length := by
    simpa using hj
  have hmemEnum : (j, (r.questionId,
      (results.filter fun x => !(errTruthy x)).filter
        fun x => x.questionId == r.questionId))
      ∈ (mapGroups (results.filter fun x => !(errTruthy x))).enum := by
    have hmem := List.getElem_mem hj2
    rw [List.getElem_enum _ _ hj2, hgetj] at hmem
    exact hmem
  have hrg : r ∈ (results.filter fun x => !(errTruthy x)).filter
      fun x => x.questionId == r.questionId :=
    List.mem_filter.mpr ⟨hrL, beq_self_eq_true _⟩
  have hcmem : r.content ∈
      ((results.filter fun x => !(errTruthy x)).filter
        fun x => x.questionId == r.questionId).flatMap
        aggregateResultSection :=
    List.mem_flatMap.mpr ⟨r, hrg, by simp [aggregateResultSection]⟩
  have hsub1 : [questionHeading (j + 1) r.questionId, r.content].Sublist
      (aggregateQuestionSection (j + 1) r.questionId
        ((results.filter fun x => !(errTruthy x)).filter
          fun x => x.questionId == r.questionId)) := by
    unfold aggregateQuestionSection
    exact List.Sublist.cons₂ _
      (List.Sublist.cons _ (List.singleton_sublist.mpr hcmem))
  have hsub2 : (aggregateQuestionSection (j + 1) r.questionId
      ((results.filter fun x => !(errTruthy x)).filter
        fun x => x.questionId == r.questionId)).Sublist
      ((mapGroups (results.filter fun x => !(errTruthy x))).enum.flatMap
        fun p => aggregateQuestionSection (p.1 + 1) p.2.1 p.2.2) :=
    sublist_flatMap_of_mem _
      (fun p => aggregateQuestionSection (p.1 + 1) p.2.1 p.2.2) _ hmemEnum
  have hsub3 : ((mapGroups (results.filter fun x => !(errTruthy x))).enum.flatMap
      fun p => aggregateQuestionSection (p.1 + 1) p.2.1 p.2.2).Sublist
      (aggregateSections results) := by
    unfold aggregateSections
    exact List.sublist_append_right _ _
  have hsub := (hsub1.trans hsub2).trans hsub3
  exact ⟨j + 1, hsub, infix_joinLines (hsub.mem (by simp))⟩

/-- C3, confirmed: when synthesis is requested, at least one task
succeeded, and synthesize throws for any reason, researchRun catches the
failure and returns the deterministic aggregation: the run does not
fail, the outcome is tagged none (aggregation only), and the report
contains every successful content under its question heading. -/
theorem synthesis_failure_falls_back (cost : Provider → String → ℚ)
    (env : AdapterEnv) (senv : SynthEnv) (cfg : ResearchRunConfig)
    (hp : cfg.providers ≠ []) (hq : cfg.questions ≠ [])
    (hs : cfg.synthesis = true)
    (_hsucc : ∃ r ∈ runResults env cfg.providers cfg.questions,
      errTruthy r = false)
    (hfail : ∃ e, (synthesize cost senv
      (runResults env cfg.providers cfg.questions)
      (cfg.synthModel.getD "gpt-5-mini")).1 = Except.error e) :
    ∃ o, researchRun cost env senv cfg = .ok o
      ∧ o.synthesisResult = aggregateWithoutSynthesis cost senv.now
          (runResults env cfg.providers cfg.questions)
      ∧ o.synthesisResult.synthModel = "none (aggregation only)"
      ∧ ∀ r ∈ runResults env cfg.providers cfg.questions,
          errTruthy r = false →
            (∃ n, [questionHeading n r.questionId, r.content].Sublist
              (aggregateSections (runResults env cfg.providers cfg.questions)))
            ∧ r.content.data <:+: o.synthesisResult.synthesized.data := by
  obtain ⟨e, he⟩ := hfail
  have hrun : researchRun cost env senv cfg = .ok
      { results := runResults env cfg.providers cfg.questions
        status := updateSystemStatus cost env.now
          (runResults env cfg.providers cfg.questions)
        synthesisResult := aggregateWithoutSynthesis cost senv.now
          (runResults env cfg.providers cfg.questions)
        synthCallIssued := (synthesize cost senv
          (runResults env cfg.providers cfg.questions)
          (cfg.synthModel.getD "gpt-5-mini")).2
        networkFlags := runNetworkFlags env cfg.providers cfg.questions } := by
    rw [researchRun_eq_ok cost env senv cfg hp hq, hs, runSynthesis_error he]
  refine ⟨_, hrun, rfl, rfl, ?_⟩
  intro r hr hrs
  obtain ⟨n, hsub, hinf⟩ := aggregate_heading_and_content hr hrs
  exact ⟨⟨n, hsub⟩, hinf⟩

/-- C3, witness: the confirmed statement instantiated on the concrete
two-success run whose synthesis HTTP call fails. -/
theorem synthesis_failure_falls_back_witness :
    cfgTwoSuccess.providers ≠ [] ∧ cfgTwoSuccess.questions ≠ []
    ∧ cfgTwoSuccess.synthesis = true
    ∧ (∃ r ∈ runResults envTwoSuccess cfgTwoSuccess.providers
        cfgTwoSuccess.questions, errTruthy r = false)
    ∧ (∃ e, (synthesize cost1 senvCallFails
        (runResults envTwoSuccess cfgTwoSuccess.providers cfgTwoSuccess.questions)
        (cfgTwoSuccess.synthModel.getD "gpt-5-mini")).1 = Except.error e)
    ∧ ∃ o, researchRun cost1 envTwoSuccess senvCallFails cfgTwoSuccess = .ok o
        ∧ o.synthesisResult = aggregateWithoutSynthesis cost1 senvCallFails.now
            (runResults envTwoSuccess cfgTwoSuccess.providers cfgTwoSuccess.questions)
        ∧ o.synthesisResult.synthModel = "none (aggregation only)"
        ∧ ∀ r ∈ runResults envTwoSuccess cfgTwoSuccess.providers
            cfgTwoSuccess.questions,
            errTruthy r = false →
              (∃ n, [questionHeading n r.questionId, r.content].Sublist
                (aggregateSections (runResults envTwoSuccess
                  cfgTwoSuccess.providers cfgTwoSuccess.questions)))
              ∧ r.content.data <:+: o.synthesisResult.synthesized.data :=
  ⟨by decide, by decide, rfl, ⟨rOpenai, by decide, by decide⟩,
    ⟨"Synthesis failed: HTTP 500: Internal Server Error", rfl⟩,
    synthesis_failure_falls_back cost1 envTwoSuccess senvCallFails cfgTwoSuccess
      (by decide) (by decide) rfl ⟨rOpenai, by decide, by decide⟩
      ⟨"Synthesis failed: HTTP 500: Internal Server Error", rfl⟩⟩

/-! ## Claim C6 -/

/-- Splitting the first term off a sum of shifted values. -/
theorem sum_range_shift (g : Nat → Nat) (a n : Nat) :
    (∑ i in Finset.range (n + 1), g (a + i)) =
      g a + ∑ i in Finset.range n, g (a + 1 + i) := by
  rw [Finset.sum_range_succ' (fun i => g (a + i)) n, Nat.add_comm]
  congr 1
  exact Finset.sum_congr rfl fun i _ => by congr 1; omega

/-- The loop performs at most one more attempt than it has remaining. -/
theorem fetchLoop_attemptsMade_le (env : Nat → FetchOutcome)
    (jitter : Nat → Nat) (url : String) (backoffBase : Nat) :
    ∀ (remaining attempt elapsed : Nat),
      (fetchLoop env jitter url backoffBase remaining attempt
        elapsed).attemptsMade ≤ remaining + 1 := by
  intro remaining
  induction remaining with
  | zero =>
    intro attempt elapsed
    simp only [fetchLoop]
    cases attemptEval (env attempt) <;> simp
  | succ left ih =>
    intro attempt elapsed
    simp only [fetchLoop]
    cases attemptEval (env attempt) with
    | ok resp => simp
    | error e =>
      by_cases hret : isRetryableFailure e
      · simp only [hret, if_true]
        have := ih (attempt + 1)
          (elapsed + (env attempt).durationMs
            + calculateBackoff attempt backoffBase (jitter attempt))
        simpa using Nat.succ_le_succ this
      · simp [hret]

/-- A first failure classified non-retryable ends the call after exactly
one attempt, with the enriched error built from the attempt index zero
and the elapsed time of that single attempt. -/
theorem fetchLoop_nonretryable (env : Nat → FetchOutcome)
    (jitter : Nat → Nat) (url : String) (backoffBase : Nat)
    (remaining attempt elapsed : Nat) (e : AttemptFailure)
    (h : attemptEval (env attempt) = .error e)
    (hnr : isRetryableFailure e = false) :
    fetchLoop env jitter url backoffBase remaining attempt elapsed =
      { outcome := .error (enrichError e url attempt
          (elapsed + (env attempt).durationMs))
        attemptsMade := 1
        waits := [] } := by
  cases remaining with
  | zero => simp only [fetchLoop]; rw [h]
  | succ left => simp only [fetchLoop]; rw [h]; simp [hnr]

/-- Every wait of the loop follows the exponential backoff formula at
its attempt index. -/
theorem fetchLoop_waits_getD (env : Nat → FetchOutcome) (jitter : Nat → Nat)
    (url : String) (backoffBase : Nat) :
    ∀ (remaining attempt elapsed i : Nat),
      i < (fetchLoop env jitter url backoffBase remaining attempt
        elapsed).waits.length →
      (fetchLoop env jitter url backoffBase remaining attempt
        elapsed).waits.getD i 0 =
        calculateBackoff (attempt + i) backoffBase (jitter (attempt + i)) := by
  intro remaining
  induction remaining with
  | zero =>
    intro attempt elapsed i hi
    exfalso
    simp only [fetchLoop] at hi
    rcases hout : attemptEval (env attempt) with resp | e <;>
      rw [hout] at hi <;> simp at hi
  | succ left ih =>
    intro attempt elapsed i hi
    simp only [fetchLoop] at hi ⊢
    cases hout : attemptEval (env attempt) with
    | ok resp => rw [hout] at hi; simp at hi
    | error e =>
      rw [hout] at hi
      by_cases hret : isRetryableFailure e
      · simp only [hret, if_true] at hi ⊢
        cases i with
        | zero => simp
        | succ i2 =>
          simp only [List.getD_cons_succ]
          have hi2 : i2 < (fetchLoop env jitter url backoffBase left
              (attempt + 1) (elapsed + (env attempt).durationMs
                + calculateBackoff attempt backoffBase
                  (jitter attempt))).waits.length := by
            simpa using Nat.lt_of_succ_lt_succ (by simpa using hi)
          have := ih (attempt + 1)
            (elapsed + (env attempt).durationMs
              + calculateBackoff attempt backoffBase (jitter attempt)) i2 hi2
          rw [this]
          have hidx : attempt + 1 + i2 = attempt + (i2 + 1) := by omega
          rw [hidx]
      · simp only [hret, if_false] at hi
        simp at hi

/-- When every attempt fails retryably, the loop exhausts its budget:
one attempt per unit of budget plus the first, one wait per retry, and
the enriched error carries the final failure, the final attempt index
and the total time of all attempts and waits. -/
theorem fetchLoop_all_retryable (env : Nat → FetchOutcome)
    (jitter : Nat → Nat) (url : String) (backoffBase : Nat)
    (f : Nat → AttemptFailure)
    (hf : ∀ i, attemptEval (env i) = .error (f i))
    (hr : ∀ i, isRetryableFailure (f i) = true) :
    ∀ (remaining attempt elapsed : Nat),
      ∃ e', (fetchLoop env jitter url backoffBase remaining attempt
          elapsed).outcome = .error e'
        ∧ e'.originalMessage = (f (attempt + remaining)).message
        ∧ e'.attempts = attempt + remaining
        ∧ e'.status = (f (attempt + remaining)).status
        ∧ e'.data = (f (attempt + remaining)).data
        ∧ e'.totalTimeMs = elapsed
            + (∑ i in Finset.range (remaining + 1),
                (env (attempt + i)).durationMs)
            + ∑ i in Finset.range remaining,
                calculateBackoff (attempt + i) backoffBase
                  (jitter (attempt + i))
        ∧ e'.message = "HTTP request failed after " ++ toString e'.attempts
            ++ " attempts (" ++ toString e'.totalTimeMs ++ "ms): "
            ++ e'.originalMessage
        ∧ (fetchLoop env jitter url backoffBase remaining attempt
            elapsed).attemptsMade = remaining + 1
        ∧ (fetchLoop env jitter url backoffBase remaining attempt
            elapsed).waits.length = remaining := by
  intro remaining
  induction remaining with
  | zero =>
    intro attempt elapsed
    simp only [fetchLoop]
    rw [hf attempt]
    refine ⟨enrichError (f attempt) url attempt
      (elapsed + (env attempt).durationMs), rfl, by simp [enrichError],
      by simp [enrichError], by simp [enrichError], by simp [enrichError],
      ?_, rfl, rfl, rfl⟩
    simp [enrichError, Finset.sum_range_one]
  | succ left ih =>
    intro attempt elapsed
    simp only [fetchLoop]
    rw [hf attempt]
    simp only [hr attempt, if_true]
    obtain ⟨e', iho, h1, h2, h3, h4, h5, h6, h7, h8⟩ := ih (attempt + 1)
      (elapsed + (env attempt).durationMs
        + calculateBackoff attempt backoffBase (jitter attempt))
    have hidx : attempt + 1 + left = attempt + (left + 1) := by omega
    rw [hidx] at h1 h2 h3 h4
    refine ⟨e', iho, h1, h2, h3, h4, ?_, h6, by simpa using h7,
      by simpa using h8⟩
    rw [h5,
      sum_range_shift (fun k => (env k).durationMs) attempt (left + 1),
      sum_range_shift (fun k => calculateBackoff k backoffBase (jitter k))
        attempt left]
    omega

/-- C6, counterexample: after four attempts on a permanently
rate-limited endpoint with maxRetries three, the enriched error carries
attempts three — the index of the final attempt — not the attempt count
four the claim asserts. -/
theorem enriched_attempts_not_count_counterexample :
    (fetchWithRetry fetch429 jitter5 "u" { maxRetries := 3 }).attemptsMade = 4
    ∧ retryAttemptsField (fetchWithRetry fetch429 jitter5 "u"
        { maxRetries := 3 }) = some 3
    ∧ some (3 : Nat) ≠
        some (fetchWithRetry fetch429 jitter5 "u"
          { maxRetries := 3 }).attemptsMade :=
  ⟨rfl, rfl, by decide⟩

/-- C6, amended: a retryable failure is attempted at most maxRetries
plus one times (exactly that many when every attempt fails retryably);
the wait before the retry after attempt i is min of backoffBase times
two to the i and 2000, plus the sampled jitter below 100; a
non-retryable failure is attempted exactly once; and the enriched error
carries the original message, the zero-based index of the final attempt
(one less than the number of attempts performed), the total elapsed
time, and the HTTP status and body when present. -/
theorem fetchWithRetry_policy (envR envN : Nat → FetchOutcome)
    (jitter : Nat → Nat) (url : String) (cfg : RetryConfig)
    (f : Nat → AttemptFailure) (e₀ : AttemptFailure)
    (hf : ∀ i, attemptEval (envR i) = .error (f i))
    (hr : ∀ i, isRetryableFailure (f i) = true)
    (hn : attemptEval (envN 0) = .error e₀)
    (hnr : isRetryableFailure e₀ = false)
    (hjit : ∀ i, jitter i < 100) :
    (∀ env' : Nat → FetchOutcome,
      (fetchWithRetry env' jitter url cfg).attemptsMade ≤ cfg.maxRetries + 1)
    ∧ (fetchWithRetry envR jitter url cfg).attemptsMade = cfg.maxRetries + 1
    ∧ (∀ (env' : Nat → FetchOutcome) (i : Nat),
        i < (fetchWithRetry env' jitter url cfg).waits.length →
        (fetchWithRetry env' jitter url cfg).waits.getD i 0 =
          min (cfg.backoffBase * 2 ^ i) 2000 + jitter i
        ∧ jitter i < 100)
    ∧ fetchWithRetry envN jitter url cfg =
        { outcome := .error (enrichError e₀ url 0 (envN 0).durationMs)
          attemptsMade := 1
          waits := [] }
    ∧ ∃ e', (fetchWithRetry envR jitter url cfg).outcome = .error e'
        ∧ e'.originalMessage = (f cfg.maxRetries).message
        ∧ e'.attempts = cfg.maxRetries
        ∧ e'.status = (f cfg.maxRetries).status
        ∧ e'.data = (f cfg.maxRetries).data
        ∧ e'.totalTimeMs =
            (∑ i in Finset.range (cfg.maxRetries + 1), (envR i).durationMs)
            + ∑ i in Finset.range cfg.maxRetries,
                (min (cfg.backoffBase * 2 ^ i) 2000 + jitter i)
        ∧ e'.message = "HTTP request failed after " ++ toString e'.attempts
            ++ " attempts (" ++ toString e'.totalTimeMs ++ "ms): "
            ++ e'.originalMessage := by
  obtain ⟨e', iho, h1, h2, h3, h4, h5, h6, h7, h8⟩ :=
    fetchLoop_all_retryable envR jitter url cfg.backoffBase f hf hr
      cfg.maxRetries 0 0
  refine ⟨fun env' => fetchLoop_attemptsMade_le env' jitter url
      cfg.backoffBase cfg.maxRetries 0 0,
    by simpa [fetchWithRetry] using h7, ?_, ?_, e', iho,
    by simpa using h1, by simpa using h2, by simpa using h3,
    by simpa using h4, ?_, h6⟩
  · intro env' i hi
    refine ⟨?_, hjit i⟩
    unfold fetchWithRetry
    have := fetchLoop_waits_getD env' jitter url cfg.backoffBase
      cfg.maxRetries 0 0 i hi
    rw [this]
    simp [calculateBackoff]
  · have := fetchLoop_nonretryable envN jitter url cfg.backoffBase
      cfg.maxRetries 0 0 e₀ hn hnr
    simpa [fetchWithRetry] using this
  · rw [h5]
    simp [calculateBackoff]

/-- C6, witness: the amended statement instantiated on a permanently
rate-limited environment and a not-found environment with a concrete
jitter sequence. -/
theorem fetchWithRetry_policy_witness :
    (∀ i, attemptEval (fetch429 i) = .error (fetch429Failure i))
    ∧ (∀ i, isRetryableFailure (fetch429Failure i) = true)
    ∧ attemptEval (fetch404 0) = .error
        { name := "Error", message := "HTTP 404: Not Found"
          status := some 404, data := some "missing" }
    ∧ isRetryableFailure
        { name := "Error", message := "HTTP 404: Not Found"
          status := some 404, data := some "missing" } = false
    ∧ ((∀ env' : Nat → FetchOutcome,
        (fetchWithRetry env' jitter5 "u" { maxRetries := 3 }).attemptsMade ≤
          ({ maxRetries := 3 } : RetryConfig).maxRetries + 1)
      ∧ (fetchWithRetry fetch429 jitter5 "u"
          { maxRetries := 3 }).attemptsMade =
          ({ maxRetries := 3 } : RetryConfig).maxRetries + 1
      ∧ (∀ (env' : Nat → FetchOutcome) (i : Nat),
          i < (fetchWithRetry env' jitter5 "u" { maxRetries := 3 }).waits.length →
          (fetchWithRetry env' jitter5 "u" { maxRetries := 3 }).waits.getD i 0 =
            min (({ maxRetries := 3 } : RetryConfig).backoffBase * 2 ^ i) 2000
              + jitter5 i
          ∧ jitter5 i < 100)
      ∧ fetchWithRetry fetch404 jitter5 "u" { maxRetries := 3 } =
          { outcome := .error (enrichError
              { name := "Error", message := "HTTP 404: Not Found"
                status := some 404, data := some "missing" } "u" 0
              (fetch404 0).durationMs)
            attemptsMade := 1
            waits := [] }
      ∧ ∃ e', (fetchWithRetry fetch429 jitter5 "u"
            { maxRetries := 3 }).outcome = .error e'
          ∧ e'.originalMessage =
              (fetch429Failure ({ maxRetries := 3 } : RetryConfig).maxRetries).message
          ∧ e'.attempts = ({ maxRetries := 3 } : RetryConfig).maxRetries
          ∧ e'.status =
              (fetch429Failure ({ maxRetries := 3 } : RetryConfig).maxRetries).status
          ∧ e'.data =
              (fetch429Failure ({ maxRetries := 3 } : RetryConfig).maxRetries).data
          ∧ e'.totalTimeMs =
              (∑ i in Finset.range (({ maxRetries := 3 } : RetryConfig).maxRetries + 1),
                (fetch429 i).durationMs)
              + ∑ i in Finset.range ({ maxRetries := 3 } : RetryConfig).maxRetries,
                  (min (({ maxRetries := 3 } : RetryConfig).backoffBase * 2 ^ i) 2000
                    + jitter5 i)
          ∧ e'.message = "HTTP request failed after " ++ toString e'.attempts
              ++ " attempts (" ++ toString e'.totalTimeMs ++ "ms): "
              ++ e'.originalMessage) :=
  ⟨fun _ => rfl, fun _ => rfl, rfl, rfl,
    fetchWithRetry_policy fetch429 fetch404 jitter5 "u" { maxRetries := 3 }
      fetch429Failure
      { name := "Error", message := "HTTP 404: Not Found"
        status := some 404, data := some "missing" }
      (fun _ => rfl) (fun _ => rfl) rfl rfl
      (fun i => by simp [jitter5])⟩

end ResearchRouter
